import Mathlib

/-!
Verification of the serialized-access sqlite worker (sqlite3worker.py).

The development shallowly embeds the request classes, the Owner Thread's run
loop, the path normalization, the per-file registry and the public operations
of the Sqlite3Worker handle. The sqlite3 engine itself is modelled as an
abstract parameter mapping query text and bound values to either a successful
payload or an engine error.
-/

deriving instance DecidableEq for Except

namespace Sqlite3worker

/-- Successful payload of a cursor execution: the materialized rows returned by
fetchall, the cursor description and the cursor lastrowid (the triple built at
line 94 of sqlite3worker.py). -/
structure ExecResult where
  rows : List (List Int)
  description : List String
  lastrowid : Int
deriving DecidableEq, Repr

/-- Model of the sqlite3 engine behaviour seen by the worker: running a query
with bound values yields either an ExecResult or an engine error message, and
committing on the connection either succeeds or raises an engine error. -/
structure Engine where
  run : String → List Int → Except String ExecResult
  commitErr : Option String

/-- Observable effects produced by the Owner Thread. A resultWritten event
models one put of a (success, payload) pair onto a request's private results
queue; the remaining events model the cursor/connection operations. -/
inductive Event where
  | resultWritten (reqId : Nat) (success : Bool) (payload : Except String ExecResult)
  | rowFactorySet (row_factory : Nat)
  | textFactorySet (text_factory : Nat)
  | committed
  | cursorClosed
  | connClosed
deriving DecidableEq, Repr

/-- The owner-thread-local mutable state: the cursor's row factory, the
connection's text factory, and the trace of observable events so far. -/
structure ThreadState where
  row_factory : Option Nat
  text_factory : Option Nat
  events : List Event
deriving DecidableEq, Repr

/-- Python-level exceptions that the embedded code can raise. -/
inductive PyError where
  | attributeError (attr : String)
  | nameError (missing : String)
  | programmingError (msg : String)
  | queueFull
  | engineError (msg : String)
  | assertionError
deriving DecidableEq, Repr

/-- The request variants put on the Owner Thread's queue, one constructor per
Sqlite3WorkerRequest subclass. Execute and ExecuteScript requests carry the
identity of their private results queue as reqId. -/
inductive Sqlite3WorkerRequest where
  | setRowFactory (row_factory : Nat)
  | setTextFactory (text_factory : Nat)
  | executeReq (reqId : Nat) (query : String) (values : List Int)
  | executeScriptReq (reqId : Nat) (query : String)
  | commitReq
  | exitReq
deriving DecidableEq, Repr

/-- Embedding of Sqlite3WorkerSetRowFactory.execute (lines 62-63): assigns the
stored row factory to the owner thread's cursor. -/
def Sqlite3WorkerSetRowFactory.execute (st : ThreadState) (row_factory : Nat) : ThreadState :=
  { st with row_factory := some row_factory,
            events := st.events ++ [Event.rowFactorySet row_factory] }

/-- Embedding of Sqlite3WorkerSetTextFactory.execute (lines 73-74): assigns the
stored text factory to the owner thread's connection. -/
def Sqlite3WorkerSetTextFactory.execute (st : ThreadState) (text_factory : Nat) : ThreadState :=
  { st with text_factory := some text_factory,
            events := st.events ++ [Event.textFactorySet text_factory] }

/-- Embedding of Sqlite3WorkerExecute.execute (lines 88-101): runs the query on
the owner thread's cursor inside a try block; on success the payload is the
fetchall/description/lastrowid triple with success flag true, on any exception
the payload is the captured error with success flag false; either way exactly
one (success, payload) pair is put onto the request's results queue. -/
def Sqlite3WorkerExecute.execute (eng : Engine) (st : ThreadState)
    (reqId : Nat) (query : String) (values : List Int) : ThreadState :=
  match eng.run query values with
  | Except.ok res =>
      { st with events := st.events ++ [Event.resultWritten reqId true (Except.ok res)] }
  | Except.error err =>
      { st with events := st.events ++ [Event.resultWritten reqId false (Except.error err)] }

/-- Embedding of Sqlite3WorkerExecuteScript.execute (lines 113-125). Line 115
reads self._sqlite3_cursor, but a Sqlite3WorkerExecuteScript object only has
the attributes thread, query and results, so that lookup raises AttributeError
before the try block at line 116 is entered; the try/except/put code below it
is unreachable and no pair is ever put onto the results queue. -/
def Sqlite3WorkerExecuteScript.execute (st : ThreadState) : PyError × ThreadState :=
  (PyError.attributeError "_sqlite3_cursor", st)

/-- Embedding of Sqlite3WorkerCommit.execute (lines 133-136): commits on the
owner thread's connection; the call is not wrapped in a try block, so an engine
failure escapes as an exception (modelled by the error side). -/
def Sqlite3WorkerCommit.execute (eng : Engine) (st : ThreadState) :
    Except (PyError × ThreadState) ThreadState :=
  match eng.commitErr with
  | none => Except.ok { st with events := st.events ++ [Event.committed] }
  | some err => Except.error (PyError.engineError err, st)

/-- Outcome of running a dequeued request's execute method inside the run loop:
normal completion, the raised Sqlite3WorkerExit exception, or another uncaught
Python exception. -/
inductive ExecOutcome where
  | ok (st : ThreadState)
  | raisedExit (st : ThreadState)
  | raised (e : PyError) (st : ThreadState)
deriving DecidableEq, Repr

/-- Dispatch of the polymorphic x.execute() call at line 185, one case per
request class; Sqlite3WorkerExit.execute (lines 139-140) raises itself. -/
def Sqlite3WorkerRequest.runExecute (eng : Engine) (st : ThreadState) :
    Sqlite3WorkerRequest → ExecOutcome
  | Sqlite3WorkerRequest.setRowFactory rf =>
      ExecOutcome.ok (Sqlite3WorkerSetRowFactory.execute st rf)
  | Sqlite3WorkerRequest.setTextFactory tf =>
      ExecOutcome.ok (Sqlite3WorkerSetTextFactory.execute st tf)
  | Sqlite3WorkerRequest.executeReq reqId query values =>
      ExecOutcome.ok (Sqlite3WorkerExecute.execute eng st reqId query values)
  | Sqlite3WorkerRequest.executeScriptReq _ _ =>
      match Sqlite3WorkerExecuteScript.execute st with
      | (e, st') => ExecOutcome.raised e st'
  | Sqlite3WorkerRequest.commitReq =>
      match Sqlite3WorkerCommit.execute eng st with
      | Except.ok st' => ExecOutcome.ok st'
      | Except.error (e, st') => ExecOutcome.raised e st'
  | Sqlite3WorkerRequest.exitReq => ExecOutcome.raisedExit st

/-- Final status of the Owner Thread's run loop on a given queue content:
closed models reaching the break at line 196, crashed models an exception
escaping the loop (and the thread dying), blocked models queue.get() waiting
forever on an empty queue. -/
inductive RunOutcome where
  | closed (st : ThreadState)
  | crashed (e : PyError) (st : ThreadState)
  | blocked (st : ThreadState)
  | outOfFuel
deriving DecidableEq, Repr

/-- Embedding of Sqlite3WorkerThread.run (lines 172-196), driven by fuel. The
queue is the list of pending requests in FIFO order. On a dequeued request the
loop calls its execute method; the except clause catches only
Sqlite3WorkerExit: if the queue is not empty the exit request is put back at
the tail and the loop continues (lines 187-190), otherwise the loop closes the
cursor, commits the connection, closes the connection and breaks, in exactly
that source order (lines 192-196). The conn.commit() at line 193 runs inside
the except handler with no protection of its own, so when it raises an engine
error the thread dies right after the cursor close, with neither the commit
nor the connection close performed. Any other exception escaping x.execute()
is not caught and kills the thread. -/
def Sqlite3WorkerThread.run (eng : Engine) :
    Nat → ThreadState → List Sqlite3WorkerRequest → RunOutcome
  | 0, _, _ => RunOutcome.outOfFuel
  | _ + 1, st, [] => RunOutcome.blocked st
  | fuel + 1, st, x :: rest =>
    match Sqlite3WorkerRequest.runExecute eng st x with
    | ExecOutcome.ok st' => Sqlite3WorkerThread.run eng fuel st' rest
    | ExecOutcome.raised e st' => RunOutcome.crashed e st'
    | ExecOutcome.raisedExit st' =>
      if rest.isEmpty then
        match eng.commitErr with
        | none =>
            RunOutcome.closed { st' with
              events := st'.events
                ++ [Event.cursorClosed, Event.committed, Event.connClosed] }
        | some err =>
            RunOutcome.crashed (PyError.engineError err)
              { st' with events := st'.events ++ [Event.cursorClosed] }
      else
        Sqlite3WorkerThread.run eng fuel st' (rest ++ [x])

/-- Model of Python str.lower() on the file names the worker handles:
character-wise lowercasing. -/
def pyLower (s : String) : String := String.mk (s.data.map Char.toLower)

/-- Embedding of normalize_file_name (lines 142-149). platformSystem stands for
the value of platform.system() and abspath for the os.path.abspath call, both
environment functions outside the repository. -/
def normalize_file_name (platformSystem : String) (abspath : String → String)
    (file_name : String) : String :=
  if pyLower file_name == ":memory:" then ":memory:"
  else
    let f := abspath file_name
    if platformSystem == "Windows" then pyLower f else f

/-- The handle-visible attributes of a Sqlite3WorkerThread object: its set of
registered workers (the reference count), the contents of its bounded request
queue and the queue bound it was created with (lines 158-170). -/
structure Sqlite3WorkerThreadObj where
  workers : List Nat
  sql_queue : List Sqlite3WorkerRequest
  max_queue_size : Nat
deriving DecidableEq, Repr

/-- Python dict lookup d.get(k). -/
def dictGet {α β : Type} [BEq α] (d : List (α × β)) (k : α) : Option β :=
  (d.find? (fun p => p.1 == k)).map (fun p => p.2)

/-- Python dict assignment d[k] = v. -/
def dictSet {α β : Type} [BEq α] (d : List (α × β)) (k : α) (v : β) : List (α × β) :=
  (k, v) :: d.filter (fun p => p.1 != k)

/-- Python del d[k]: removes the binding, raising KeyError (the error side)
when the key is absent. -/
def dictDel {α β : Type} [BEq α] (d : List (α × β)) (k : α) :
    Except Unit (List (α × β)) :=
  if (dictGet d k).isSome then Except.ok (d.filter (fun p => p.1 != k))
  else Except.error ()

/-- The process-wide class-shared state of Sqlite3Worker: _threads maps a
normalized file name to the identity of its owner thread (lines 216-218); the
heap gives each thread identity its object, and nextTid numbers freshly
constructed threads. -/
structure GlobalState where
  threads : List (String × Nat)
  heap : List (Nat × Sqlite3WorkerThreadObj)
  nextTid : Nat
deriving DecidableEq, Repr

/-- A Sqlite3Worker handle: the identity used to represent the handle inside a
thread's workers set, plus the attributes of lines 212-214: normalized file
name, closed flag and a reference to the owner thread. -/
structure Sqlite3Worker where
  workerId : Nat
  _file_name : String
  _exit_set : Bool
  _thread : Nat
deriving DecidableEq, Repr

/-- Embedding of Sqlite3Worker.__init__ (lines 220-235), which runs under the
class lock. When no thread is registered for the normalized file name, a fresh
thread is created and line 232 registers it in _threads unconditionally - also
for ':memory:' - after which the guarded assignment of lines 233-234 can never
change the map. workerId is the identity of the handle being constructed. -/
def Sqlite3Worker.init (platformSystem : String) (abspath : String → String)
    (g : GlobalState) (workerId : Nat) (file_name : String) (max_queue_size : Nat) :
    Sqlite3Worker × GlobalState :=
  let fname := normalize_file_name platformSystem abspath file_name
  match dictGet g.threads fname with
  | some tid =>
    let threads1 := if fname != ":memory:" then dictSet g.threads fname tid else g.threads
    let heap1 :=
      match dictGet g.heap tid with
      | some obj => dictSet g.heap tid { obj with workers := obj.workers ++ [workerId] }
      | none => g.heap
    (⟨workerId, fname, false, tid⟩, { g with threads := threads1, heap := heap1 })
  | none =>
    let tid := g.nextTid
    let threads1 := dictSet g.threads fname tid
    let threads2 := if fname != ":memory:" then dictSet threads1 fname tid else threads1
    let heap1 := dictSet g.heap tid ⟨[workerId], [], max_queue_size⟩
    (⟨workerId, fname, false, tid⟩, ⟨threads2, heap1, g.nextTid + 1⟩)

/-- Python Queue.put with a finite timeout on a bounded queue: when maxsize is
positive and the queue is at capacity the put raises queue.Full after the
bounded wait (nothing else drains the queue within the model), otherwise the
item is appended at the tail. -/
def queuePutTimeout (maxsize : Nat) (q : List Sqlite3WorkerRequest)
    (x : Sqlite3WorkerRequest) : Except PyError (List Sqlite3WorkerRequest) :=
  if 0 < maxsize ∧ maxsize ≤ q.length then Except.error PyError.queueFull
  else Except.ok (q ++ [x])

/-- The submission pattern self._thread._sql_queue.put ( r, timeout=5 ) shared
by the public operations: put the request onto the owner thread's bounded
queue, propagating queue.Full to the submitter and leaving the state unchanged
in that case. -/
def threadQueuePut (g : GlobalState) (w : Sqlite3Worker) (r : Sqlite3WorkerRequest) :
    Except PyError GlobalState :=
  match dictGet g.heap w._thread with
  | none => Except.error (PyError.attributeError "_sql_queue")
  | some obj =>
    match queuePutTimeout obj.max_queue_size obj.sql_queue r with
    | Except.error e => Except.error e
    | Except.ok q' =>
        Except.ok { g with heap := dictSet g.heap w._thread { obj with sql_queue := q' } }

/-- Embedding of Sqlite3Worker.set_row_factory (lines 259-260): enqueues the
request with timeout 5; the method performs no closed-flag check. -/
def Sqlite3Worker.set_row_factory (g : GlobalState) (w : Sqlite3Worker)
    (row_factory : Nat) : Except PyError GlobalState :=
  threadQueuePut g w (Sqlite3WorkerRequest.setRowFactory row_factory)

/-- Embedding of Sqlite3Worker.set_text_factory (lines 262-263): enqueues the
request with timeout 5; the method performs no closed-flag check. -/
def Sqlite3Worker.set_text_factory (g : GlobalState) (w : Sqlite3Worker)
    (text_factory : Nat) : Except PyError GlobalState :=
  threadQueuePut g w (Sqlite3WorkerRequest.setTextFactory text_factory)

/-- Embedding of Sqlite3Worker.execute_ex (lines 265-286) together with the
round trip of the submitted request through the Owner Thread: the closed-flag
check, the bounded enqueue, the owner running Sqlite3WorkerExecute.execute on
the dequeued request, and the submitter reading the single (success, result)
pair from r.results.get(), returning the payload on success and raising the
captured error value on failure. values=None becomes the empty binding list
(values or [], line 280). -/
def Sqlite3Worker.execute_ex (eng : Engine) (g : GlobalState) (w : Sqlite3Worker)
    (reqId : Nat) (query : String) (values : Option (List Int)) :
    Except PyError (ExecResult × GlobalState) :=
  if w._exit_set then Except.error (PyError.programmingError "sqlite worker already closed")
  else
    let vals := values.getD []
    match threadQueuePut g w (Sqlite3WorkerRequest.executeReq reqId query vals) with
    | Except.error e => Except.error e
    | Except.ok g1 =>
      match eng.run query vals with
      | Except.ok res => Except.ok (res, g1)
      | Except.error err => Except.error (PyError.engineError err)

/-- Embedding of Sqlite3Worker.execute (lines 288-289): the rows component of
the execute_ex triple. -/
def Sqlite3Worker.execute (eng : Engine) (g : GlobalState) (w : Sqlite3Worker)
    (reqId : Nat) (query : String) (values : Option (List Int)) :
    Except PyError (List (List Int) × GlobalState) :=
  match Sqlite3Worker.execute_ex eng g w reqId query values with
  | Except.ok (res, g1) => Except.ok (res.rows, g1)
  | Except.error e => Except.error e

/-- Result of a blocking submitter call: a raised error, or blocking forever on
r.results.get() because the owner thread never writes a pair into the slot. -/
inductive CallOutcome (α : Type) where
  | ok (a : α)
  | raised (e : PyError)
  | blocksForever
deriving DecidableEq, Repr

/-- Embedding of Sqlite3Worker.executescript_ex (lines 291-302) with the round
trip: after the closed-flag check and the bounded enqueue the owner thread
runs Sqlite3WorkerExecuteScript.execute, which raises AttributeError before
putting any pair onto r.results, so the submitter's r.results.get() blocks
forever. -/
def Sqlite3Worker.executescript_ex (g : GlobalState) (w : Sqlite3Worker)
    (reqId : Nat) (query : String) : CallOutcome (ExecResult × GlobalState) :=
  if w._exit_set then
    CallOutcome.raised (PyError.programmingError "sqlite worker already closed")
  else
    match threadQueuePut g w (Sqlite3WorkerRequest.executeScriptReq reqId query) with
    | Except.error e => CallOutcome.raised e
    | Except.ok _ => CallOutcome.blocksForever

/-- Embedding of Sqlite3Worker.commit (lines 307-312). When the closed flag is
set, the logging call at line 309 evaluates the name query, which is not
defined in commit's scope, so NameError is raised and the ProgrammingError at
line 310 is never reached. Otherwise the commit request is enqueued
fire-and-forget with timeout 5. -/
def Sqlite3Worker.commit (g : GlobalState) (w : Sqlite3Worker) :
    Except PyError GlobalState :=
  if w._exit_set then Except.error (PyError.nameError "query")
  else threadQueuePut g w Sqlite3WorkerRequest.commitReq

/-- Embedding of the Sqlite3Worker.total_changes property (lines 314-319):
raises ProgrammingError when the closed flag is set, otherwise reads the live
connection's total_changes counter (an environment value). -/
def Sqlite3Worker.total_changes (w : Sqlite3Worker) (counter : Int) :
    Except PyError Int :=
  if w._exit_set then Except.error (PyError.programmingError "sqlite worker already closed")
  else Except.ok counter

/-- Embedding of Sqlite3Worker.close (lines 237-252). Raises ProgrammingError
when the handle is already closed; otherwise sets the closed flag and, under
the class lock, removes the handle from the owner thread's workers set. When
that set becomes empty it puts a Sqlite3WorkerExit request onto the queue with
timeout 5, joins the thread - modelled by running Sqlite3WorkerThread.run with
the given fuel on the queued requests, after which the queue is drained - and
deletes the registry entry, the except KeyError branch asserting the file name
is ':memory:'. The returned option carries the joined thread's outcome when a
shutdown was triggered. -/
def Sqlite3Worker.close (eng : Engine) (fuel : Nat) (tstate : ThreadState)
    (g : GlobalState) (w : Sqlite3Worker) :
    Except PyError (Sqlite3Worker × GlobalState × Option RunOutcome) :=
  if w._exit_set then Except.error (PyError.programmingError "sqlite worker already closed")
  else
    let w' : Sqlite3Worker := { w with _exit_set := true }
    match dictGet g.heap w._thread with
    | none => Except.error (PyError.attributeError "_workers")
    | some obj =>
      let workers' := obj.workers.filter (fun i => i != w.workerId)
      if workers'.isEmpty then
        match queuePutTimeout obj.max_queue_size obj.sql_queue Sqlite3WorkerRequest.exitReq with
        | Except.error e => Except.error e
        | Except.ok q' =>
          let outcome := Sqlite3WorkerThread.run eng fuel tstate q'
          let heap1 := dictSet g.heap w._thread { obj with workers := [], sql_queue := [] }
          match dictDel g.threads w._file_name with
          | Except.ok threads' =>
              Except.ok (w', { g with threads := threads', heap := heap1 }, some outcome)
          | Except.error _ =>
              if w._file_name == ":memory:" then
                Except.ok (w', { g with heap := heap1 }, some outcome)
              else Except.error PyError.assertionError
      else
        Except.ok (w', { g with heap := dictSet g.heap w._thread { obj with workers := workers' } },
          none)

/-- A concrete engine on which every query succeeds with one fixed row. -/
def engW : Engine :=
  ⟨fun _ _ => Except.ok ⟨[[1]], ["col"], 7⟩, none⟩

/-- The empty thread-local state. -/
def stW : ThreadState := ⟨none, none, []⟩

/-- A concrete global state: one owner thread (identity 0) for the path
"/tmp/db", holding one registered worker (identity 1), an empty queue and the
default bound 100. -/
def gW : GlobalState := ⟨[("/tmp/db", 0)], [(0, ⟨[1], [], 100⟩)], 1⟩

/-- The open handle registered in gW. -/
def wW : Sqlite3Worker := ⟨1, "/tmp/db", false, 0⟩

/-- The same handle with its closed flag set. -/
def wClosedW : Sqlite3Worker := ⟨1, "/tmp/db", true, 0⟩

/-- The queue of Execute requests built from (reqId, query, values) triples. -/
def execQueue (rs : List (Nat × String × List Int)) : List Sqlite3WorkerRequest :=
  rs.map (fun r => Sqlite3WorkerRequest.executeReq r.1 r.2.1 r.2.2)

/-- The result events the Owner Thread writes for those requests, in order. -/
def execEvents (eng : Engine) (rs : List (Nat × String × List Int)) : List Event :=
  rs.map (fun r =>
    match eng.run r.2.1 r.2.2 with
    | Except.ok res => Event.resultWritten r.1 true (Except.ok res)
    | Except.error err => Event.resultWritten r.1 false (Except.error err))

/-- gW after a successful enqueue of one Execute request. -/
def g1W : GlobalState :=
  ⟨[("/tmp/db", 0)],
   [(0, ⟨[1], [Sqlite3WorkerRequest.executeReq 0 "select 1" []], 100⟩)], 1⟩

/-- A global state whose single owner thread has a full queue: bound 1 and one
pending request. -/
def gFullW : GlobalState :=
  ⟨[("/tmp/db", 0)], [(0, ⟨[1], [Sqlite3WorkerRequest.commitReq], 1⟩)], 1⟩

/-- A concrete os.path.abspath model resolving every name under /cwd. -/
def abspathW (s : String) : String := String.append "/cwd/" s

theorem dictGet_set_self {α β : Type} [BEq α] [LawfulBEq α]
    (d : List (α × β)) (k : α) (v : β) : dictGet (dictSet d k v) k = some v := by
  simp [dictGet, dictSet]

theorem dictGet_filter_self {α β : Type} [BEq α]
    (d : List (α × β)) (k : α) :
    dictGet (d.filter (fun p => p.1 != k)) k = none := by
  induction d with
  | nil => rfl
  | cons p d ih =>
      simp only [bne] at ih ⊢
      rw [List.filter_cons]
      cases hpk : (p.1 == k) with
      | true => simp [hpk, ih]
      | false =>
          simp only [dictGet] at ih ⊢
          simp [List.find?_cons, hpk, ih]

theorem run_execs (eng : Engine) (xs : List (Nat × String × List Int)) :
    ∀ (fuel : Nat) (st : ThreadState) (q : List Sqlite3WorkerRequest),
      Sqlite3WorkerThread.run eng (xs.length + fuel) st (execQueue xs ++ q)
        = Sqlite3WorkerThread.run eng fuel
            { st with events := st.events ++ execEvents eng xs } q := by
  induction xs with
  | nil =>
      intro fuel st q
      simp [execQueue, execEvents]
  | cons x xs ih =>
      intro fuel st q
      have hfuel : (x :: xs).length + fuel = (xs.length + fuel) + 1 := by
        simp only [List.length_cons]
        omega
      rw [hfuel]
      have hq : execQueue (x :: xs) ++ q
          = Sqlite3WorkerRequest.executeReq x.1 x.2.1 x.2.2 :: (execQueue xs ++ q) := by
        simp [execQueue]
      rw [hq]
      cases hrun : eng.run x.2.1 x.2.2 with
      | ok res =>
          simp only [Sqlite3WorkerThread.run, Sqlite3WorkerRequest.runExecute,
            Sqlite3WorkerExecute.execute, hrun]
          rw [ih]
          congr 1
          simp [execEvents, hrun, List.append_assoc]
      | error err =>
          simp only [Sqlite3WorkerThread.run, Sqlite3WorkerRequest.runExecute,
            Sqlite3WorkerExecute.execute, hrun]
          rw [ih]
          congr 1
          simp [execEvents, hrun, List.append_assoc]

theorem threadQueuePut_full (g : GlobalState) (w : Sqlite3Worker)
    (obj : Sqlite3WorkerThreadObj) (r : Sqlite3WorkerRequest)
    (hobj : dictGet g.heap w._thread = some obj)
    (hpos : 0 < obj.max_queue_size) (hlen : obj.max_queue_size ≤ obj.sql_queue.length) :
    threadQueuePut g w r = Except.error PyError.queueFull := by
  simp [threadQueuePut, hobj, queuePutTimeout, hpos, hlen]

theorem init_found (platformSystem : String) (abspath : String → String)
    (g : GlobalState) (wid m tid : Nat) (s : String)
    (hfind : dictGet g.threads (normalize_file_name platformSystem abspath s) = some tid) :
    ((Sqlite3Worker.init platformSystem abspath g wid s m).1)._thread = tid := by
  simp [Sqlite3Worker.init, hfind]

theorem init_registers (platformSystem : String) (abspath : String → String)
    (g : GlobalState) (wid m : Nat) (s : String)
    (hns : normalize_file_name platformSystem abspath s ≠ ":memory:") :
    dictGet ((Sqlite3Worker.init platformSystem abspath g wid s m).2).threads
        (normalize_file_name platformSystem abspath s)
      = some (((Sqlite3Worker.init platformSystem abspath g wid s m).1)._thread) := by
  have hbne : (normalize_file_name platformSystem abspath s != ":memory:") = true := by
    simp [bne, hns]
  cases hfind : dictGet g.threads (normalize_file_name platformSystem abspath s) with
  | some tid => simp [Sqlite3Worker.init, hfind, hbne, dictGet_set_self]
  | none => simp [Sqlite3Worker.init, hfind, hbne, dictGet_set_self]

/-- C1: refuted on the code for ExecuteScript requests. The Owner Thread's run
loop, dequeuing an ExecuteScript request, crashes with the AttributeError
raised at line 115 and no (success, payload) pair is ever written into the
request's private result slot: the final state still carries the unchanged
event trace, so the submitted request's result is lost and the submitter
blocked on r.results.get() waits forever. -/
theorem C1_executescript_result_lost (eng : Engine) (reqId : Nat) (q : String)
    (st : ThreadState) :
    Sqlite3WorkerThread.run eng 2 st [Sqlite3WorkerRequest.executeScriptReq reqId q]
        = RunOutcome.crashed (PyError.attributeError "_sqlite3_cursor") st ∧
    Sqlite3Worker.executescript_ex gW wW reqId q = CallOutcome.blocksForever := by
  exact ⟨rfl, rfl⟩

/-- C1 witness: the theorem applied at a concrete engine, request and state. -/
theorem C1_executescript_result_lost_witness :
    Sqlite3WorkerThread.run engW 2 stW [Sqlite3WorkerRequest.executeScriptReq 0 "select 1"]
        = RunOutcome.crashed (PyError.attributeError "_sqlite3_cursor") stW ∧
    Sqlite3Worker.executescript_ex gW wW 0 "select 1" = CallOutcome.blocksForever := by
  exact C1_executescript_result_lost engW 0 "select 1" stW

/-- C2: refuted on the code: an exception raised during request execution is
not always captured - the AttributeError from an ExecuteScript request passes
the run loop's except clause, which catches only Sqlite3WorkerExit, and the
Owner Thread terminates without ever processing the Shutdown request behind
it. -/
theorem C2_run_loop_killed_by_executescript (eng : Engine) (reqId : Nat) (q : String)
    (st : ThreadState) :
    Sqlite3WorkerThread.run eng 3 st
        [Sqlite3WorkerRequest.executeScriptReq reqId q, Sqlite3WorkerRequest.exitReq]
      = RunOutcome.crashed (PyError.attributeError "_sqlite3_cursor") st := by
  rfl

/-- C3: refuted on the code: the first construction against ':memory:' inserts
the fresh Owner Thread into the registry map (line 232), so a second
construction against the sentinel finds that entry and shares the same Owner
Thread instead of creating an independent one. -/
theorem C3_memory_registered_and_shared :
    dictGet (Sqlite3Worker.init "Linux" id ⟨[], [], 0⟩ 1 ":memory:" 100).2.threads ":memory:"
        = some 0 ∧
    ((Sqlite3Worker.init "Linux" id
        (Sqlite3Worker.init "Linux" id ⟨[], [], 0⟩ 1 ":memory:" 100).2 2 ":memory:" 100).1)._thread
      = ((Sqlite3Worker.init "Linux" id ⟨[], [], 0⟩ 1 ":memory:" 100).1)._thread := by
  exact ⟨rfl, rfl⟩

/-- C5: partially refuted on the code. With the closed flag set, a second
close, execute, execute-script and the total-changes read do fail fast with
the already-closed ProgrammingError; but commit raises NameError - line 309
evaluates the undefined name query before the ProgrammingError of line 310 is
built - and set_row_factory / set_text_factory perform no closed-flag check at
all: they enqueue their request onto the owner thread's queue. -/
theorem C5_closed_flag_checks :
    Sqlite3Worker.close engW 1 stW gW wClosedW
      = Except.error (PyError.programmingError "sqlite worker already closed") ∧
    Sqlite3Worker.execute_ex engW gW wClosedW 0 "select 1" none
      = Except.error (PyError.programmingError "sqlite worker already closed") ∧
    Sqlite3Worker.executescript_ex gW wClosedW 0 "select 1"
      = CallOutcome.raised (PyError.programmingError "sqlite worker already closed") ∧
    Sqlite3Worker.total_changes wClosedW 0
      = Except.error (PyError.programmingError "sqlite worker already closed") ∧
    Sqlite3Worker.commit gW wClosedW = Except.error (PyError.nameError "query") ∧
    Sqlite3Worker.set_row_factory gW wClosedW 7
      = Except.ok ⟨[("/tmp/db", 0)],
          [(0, ⟨[1], [Sqlite3WorkerRequest.setRowFactory 7], 100⟩)], 1⟩ ∧
    Sqlite3Worker.set_text_factory gW wClosedW 8
      = Except.ok ⟨[("/tmp/db", 0)],
          [(0, ⟨[1], [Sqlite3WorkerRequest.setTextFactory 8], 100⟩)], 1⟩ := by
  exact ⟨rfl, rfl, rfl, rfl, rfl, rfl, rfl⟩

/-- C7 counterexample: on dequeuing Shutdown with an empty queue the Owner
Thread closes the cursor first and only then commits (lines 192-194); the
run loop's event trace is cursor-close, commit, connection-close and not the
claimed commit, cursor-close, connection-close. -/
theorem C7_shutdown_order_counterexample :
    Sqlite3WorkerThread.run engW 1 stW [Sqlite3WorkerRequest.exitReq]
      = RunOutcome.closed ⟨none, none,
          [Event.cursorClosed, Event.committed, Event.connClosed]⟩ ∧
    Sqlite3WorkerThread.run engW 1 stW [Sqlite3WorkerRequest.exitReq]
      ≠ RunOutcome.closed ⟨none, none,
          [Event.committed, Event.cursorClosed, Event.connClosed]⟩ := by
  exact ⟨rfl, by decide⟩

/-- C6: confirmed: when the run loop dequeues the Shutdown request while the
queue still holds other pending requests it re-enqueues the Shutdown request
at the tail of the queue and keeps running; consequently, for a queue of
Execute requests with the Shutdown request in their midst, the loop writes
exactly one result event for every request, in FIFO order, before any
close-down event and before the thread terminates - also when the final
shutdown commit of line 193 fails, in which case the thread dies right after
the cursor close but still only after every queued request produced its
result. -/
theorem C6_shutdown_requeue_drains (eng : Engine) (st st2 : ThreadState) (fuel : Nat)
    (rest : List Sqlite3WorkerRequest) (rs1 rs2 : List (Nat × String × List Int))
    (hrest : rest ≠ []) :
    Sqlite3WorkerThread.run eng (fuel + 1) st2 (Sqlite3WorkerRequest.exitReq :: rest)
      = Sqlite3WorkerThread.run eng fuel st2 (rest ++ [Sqlite3WorkerRequest.exitReq]) ∧
    Sqlite3WorkerThread.run eng (rs1.length + (rs2.length + 2)) st
        (execQueue rs1 ++ Sqlite3WorkerRequest.exitReq :: execQueue rs2)
      = (match eng.commitErr with
         | none => RunOutcome.closed { st with events := st.events ++ (execEvents eng rs1
             ++ (execEvents eng rs2
             ++ [Event.cursorClosed, Event.committed, Event.connClosed])) }
         | some err => RunOutcome.crashed (PyError.engineError err)
             { st with events := st.events ++ (execEvents eng rs1
             ++ (execEvents eng rs2 ++ [Event.cursorClosed])) }) := by
  constructor
  · have hne : rest.isEmpty = false := by
      cases rest with
      | nil => exact absurd rfl hrest
      | cons a l => rfl
    simp [Sqlite3WorkerThread.run, Sqlite3WorkerRequest.runExecute, hne]
  · rw [run_execs eng rs1 (rs2.length + 2) st
      (Sqlite3WorkerRequest.exitReq :: execQueue rs2)]
    cases rs2 with
    | nil =>
        cases hce : eng.commitErr with
        | none =>
            simp [Sqlite3WorkerThread.run, Sqlite3WorkerRequest.runExecute,
              execQueue, execEvents, hce]
        | some err =>
            simp [Sqlite3WorkerThread.run, Sqlite3WorkerRequest.runExecute,
              execQueue, execEvents, hce]
    | cons y ys =>
        have hne2 : (execQueue (y :: ys)).isEmpty = false := by simp [execQueue]
        have hstep : Sqlite3WorkerThread.run eng ((y :: ys).length + 2)
              { st with events := st.events ++ execEvents eng rs1 }
              (Sqlite3WorkerRequest.exitReq :: execQueue (y :: ys))
            = Sqlite3WorkerThread.run eng ((y :: ys).length + 1)
              { st with events := st.events ++ execEvents eng rs1 }
              (execQueue (y :: ys) ++ [Sqlite3WorkerRequest.exitReq]) := by
          simp [Sqlite3WorkerThread.run, Sqlite3WorkerRequest.runExecute, hne2]
        rw [hstep, run_execs eng (y :: ys) 1
          { st with events := st.events ++ execEvents eng rs1 }
          [Sqlite3WorkerRequest.exitReq]]
        cases hce : eng.commitErr with
        | none =>
            simp [Sqlite3WorkerThread.run, Sqlite3WorkerRequest.runExecute, hce,
              List.append_assoc]
        | some err =>
            simp [Sqlite3WorkerThread.run, Sqlite3WorkerRequest.runExecute, hce,
              List.append_assoc]

/-- C6 witness: the theorem applied at a concrete engine, state and queues. -/
theorem C6_shutdown_requeue_drains_witness :
    Sqlite3WorkerThread.run engW (2 + 1) stW
        (Sqlite3WorkerRequest.exitReq :: [Sqlite3WorkerRequest.commitReq])
      = Sqlite3WorkerThread.run engW 2 stW
          ([Sqlite3WorkerRequest.commitReq] ++ [Sqlite3WorkerRequest.exitReq]) ∧
    Sqlite3WorkerThread.run engW
        ((([(0, "qa", [])] : List (Nat × String × List Int)).length
          + ((([(1, "qb", [])] : List (Nat × String × List Int)).length + 2)))) stW
        (execQueue [(0, "qa", [])] ++ Sqlite3WorkerRequest.exitReq :: execQueue [(1, "qb", [])])
      = RunOutcome.closed { stW with events := stW.events
          ++ (execEvents engW [(0, "qa", [])]
          ++ (execEvents engW [(1, "qb", [])]
          ++ [Event.cursorClosed, Event.committed, Event.connClosed])) } := by
  exact C6_shutdown_requeue_drains engW stW stW 2 [Sqlite3WorkerRequest.commitReq]
    [(0, "qa", [])] [(1, "qb", [])] (by decide)

/-- C4: confirmed: on an open handle with room in the queue, execute_ex
returns the (rows, description, lastrowid) triple exactly when the engine
succeeds, execute returns only the rows component, and when the engine fails
the captured error value is raised to the submitting caller. -/
theorem C4_execute_contract (eng : Engine) (g g1 : GlobalState) (w : Sqlite3Worker)
    (reqId : Nat) (query : String) (values : Option (List Int))
    (hopen : w._exit_set = false)
    (henq : threadQueuePut g w
        (Sqlite3WorkerRequest.executeReq reqId query (values.getD [])) = Except.ok g1) :
    Sqlite3Worker.execute_ex eng g w reqId query values
      = (match eng.run query (values.getD []) with
         | Except.ok res => Except.ok (res, g1)
         | Except.error err => Except.error (PyError.engineError err)) ∧
    Sqlite3Worker.execute eng g w reqId query values
      = (match eng.run query (values.getD []) with
         | Except.ok res => Except.ok (res.rows, g1)
         | Except.error err => Except.error (PyError.engineError err)) := by
  have h1 : Sqlite3Worker.execute_ex eng g w reqId query values
      = (match eng.run query (values.getD []) with
         | Except.ok res => Except.ok (res, g1)
         | Except.error err => Except.error (PyError.engineError err)) := by
    simp only [Sqlite3Worker.execute_ex, hopen, Bool.false_eq_true, if_false, henq]
  refine ⟨h1, ?_⟩
  rw [Sqlite3Worker.execute, h1]
  cases eng.run query (values.getD []) <;> rfl

/-- C4 witness: the theorem applied at a concrete engine, state and query. -/
theorem C4_execute_contract_witness :
    Sqlite3Worker.execute_ex engW gW wW 0 "select 1" none
      = Except.ok (⟨[[1]], ["col"], 7⟩, g1W) ∧
    Sqlite3Worker.execute engW gW wW 0 "select 1" none
      = Except.ok ([[1]], g1W) := by
  exact C4_execute_contract engW gW g1W wW 0 "select 1" none rfl rfl

/-- C7 amended: on dequeuing the Shutdown request with an empty queue the
Owner Thread closes the cursor, then commits the pending transaction, then
closes the connection, and then terminates; the Registry entry is removed
afterwards by the last Worker Handle's close(), which joins the terminated
thread and then deletes the map entry. The clean sequence requires the
shutdown commit of line 193 to succeed - it runs unprotected inside the
except handler, so an engine failure there kills the thread right after the
cursor close instead. -/
theorem C7_close_sequence (eng : Engine) (tstate : ThreadState) (g : GlobalState)
    (w : Sqlite3Worker) (obj : Sqlite3WorkerThreadObj)
    (hopen : w._exit_set = false)
    (hcommit : eng.commitErr = none)
    (hobj : dictGet g.heap w._thread = some obj)
    (hworkers : obj.workers = [w.workerId])
    (hqueue : obj.sql_queue = [])
    (hreg : (dictGet g.threads w._file_name).isSome = true) :
    Sqlite3Worker.close eng 1 tstate g w
      = Except.ok ({ w with _exit_set := true },
          { g with threads := g.threads.filter (fun p => p.1 != w._file_name),
                   heap := dictSet g.heap w._thread { obj with workers := [], sql_queue := [] } },
          some (RunOutcome.closed { tstate with events := tstate.events
              ++ [Event.cursorClosed, Event.committed, Event.connClosed] })) ∧
    dictGet (g.threads.filter (fun p => p.1 != w._file_name)) w._file_name = none := by
  constructor
  · have hput : queuePutTimeout obj.max_queue_size ([] : List Sqlite3WorkerRequest)
        Sqlite3WorkerRequest.exitReq = Except.ok [Sqlite3WorkerRequest.exitReq] := by
      have hcond : ¬(0 < obj.max_queue_size
          ∧ obj.max_queue_size ≤ ([] : List Sqlite3WorkerRequest).length) := by
        rintro ⟨hp, hl⟩
        simp only [List.length_nil, Nat.le_zero] at hl
        omega
      simp only [queuePutTimeout]
      rw [if_neg hcond]
      rfl
    simp [Sqlite3Worker.close, hopen, hcommit, hobj, hworkers, hqueue, hput, dictDel, hreg,
      Sqlite3WorkerThread.run, Sqlite3WorkerRequest.runExecute]
  · exact dictGet_filter_self g.threads w._file_name

/-- C7 amended witness: the theorem applied at a concrete state with one
registered handle and an empty queue. -/
theorem C7_close_sequence_witness :
    Sqlite3Worker.close engW 1 stW gW wW
      = Except.ok ({ wW with _exit_set := true },
          { gW with threads := gW.threads.filter (fun p => p.1 != wW._file_name),
                    heap := dictSet gW.heap wW._thread
                      { (⟨[1], [], 100⟩ : Sqlite3WorkerThreadObj) with
                          workers := [], sql_queue := [] } },
          some (RunOutcome.closed { stW with events := stW.events
              ++ [Event.cursorClosed, Event.committed, Event.connClosed] })) ∧
    dictGet (gW.threads.filter (fun p => p.1 != wW._file_name)) wW._file_name = none := by
  exact C7_close_sequence engW stW gW wW ⟨[1], [], 100⟩ rfl rfl rfl rfl rfl rfl

/-- C8: confirmed: a non-sentinel path is canonicalized through
os.path.abspath and case-folded exactly when the platform is Windows; the
sentinel is passed through unchanged; two spellings with the same canonical
form normalize to the same registry key, and a handle constructed against the
second spelling after one against the first finds the same Owner Thread in
the registry. -/
theorem C8_normalization_shares_thread (platformSystem : String)
    (abspath : String → String) (g : GlobalState) (id1 id2 m1 m2 : Nat) (s1 s2 : String)
    (h1 : pyLower s1 ≠ ":memory:") (h2 : pyLower s2 ≠ ":memory:")
    (hk1 : normalize_file_name platformSystem abspath s1 ≠ ":memory:")
    (hwin : platformSystem = "Windows" → pyLower (abspath s1) = pyLower (abspath s2))
    (hnon : platformSystem ≠ "Windows" → abspath s1 = abspath s2) :
    normalize_file_name platformSystem abspath s1
        = (if platformSystem == "Windows" then pyLower (abspath s1) else abspath s1) ∧
    normalize_file_name platformSystem abspath ":memory:" = ":memory:" ∧
    normalize_file_name platformSystem abspath s1
        = normalize_file_name platformSystem abspath s2 ∧
    ((Sqlite3Worker.init platformSystem abspath
        (Sqlite3Worker.init platformSystem abspath g id1 s1 m1).2 id2 s2 m2).1)._thread
      = ((Sqlite3Worker.init platformSystem abspath g id1 s1 m1).1)._thread := by
  have e1 : normalize_file_name platformSystem abspath s1
      = (if platformSystem == "Windows" then pyLower (abspath s1) else abspath s1) := by
    simp [normalize_file_name, h1]
  have e3 : normalize_file_name platformSystem abspath s1
      = normalize_file_name platformSystem abspath s2 := by
    by_cases hw : platformSystem = "Windows"
    · simp [normalize_file_name, h1, h2, hw, hwin hw]
    · simp [normalize_file_name, h1, h2, hw, hnon hw]
  refine ⟨e1, by rfl, e3, ?_⟩
  have hfind : dictGet ((Sqlite3Worker.init platformSystem abspath g id1 s1 m1).2).threads
      (normalize_file_name platformSystem abspath s2)
      = some (((Sqlite3Worker.init platformSystem abspath g id1 s1 m1).1)._thread) := by
    rw [← e3]
    exact init_registers platformSystem abspath g id1 m1 s1 hk1
  exact init_found platformSystem abspath
    (Sqlite3Worker.init platformSystem abspath g id1 s1 m1).2 id2 m2
    (((Sqlite3Worker.init platformSystem abspath g id1 s1 m1).1)._thread) s2 hfind

/-- C8 witness: on the Windows platform model, the relative spelling A.db and
the differently-cased spelling a.db resolve to the same key /cwd/a.db and the
second construction shares the first construction's Owner Thread. -/
theorem C8_normalization_shares_thread_witness :
    normalize_file_name "Windows" abspathW "A.db"
        = (if "Windows" == "Windows" then pyLower (abspathW "A.db") else abspathW "A.db") ∧
    normalize_file_name "Windows" abspathW ":memory:" = ":memory:" ∧
    normalize_file_name "Windows" abspathW "A.db"
        = normalize_file_name "Windows" abspathW "a.db" ∧
    ((Sqlite3Worker.init "Windows" abspathW
        (Sqlite3Worker.init "Windows" abspathW ⟨[], [], 0⟩ 1 "A.db" 100).2 2 "a.db" 50).1)._thread
      = ((Sqlite3Worker.init "Windows" abspathW ⟨[], [], 0⟩ 1 "A.db" 100).1)._thread := by
  exact C8_normalization_shares_thread "Windows" abspathW ⟨[], [], 0⟩ 1 2 100 50
    "A.db" "a.db" (by decide) (by decide) (by decide)
    (fun _ => by decide) (fun h => absurd rfl h)

/-- C9: confirmed: every public submission on an open handle - execute,
execute-script, commit, set-row-factory and set-text-factory - enqueues with
a bounded timeout, and when the owner thread's queue is at capacity the call
raises the queue-full error to the submitter; the error return carries no
state change, so the request never reaches the Owner Thread's queue. -/
theorem C9_queue_full_rejected (eng : Engine) (g : GlobalState) (w : Sqlite3Worker)
    (obj : Sqlite3WorkerThreadObj) (reqId rf tf : Nat) (query : String)
    (values : Option (List Int))
    (hopen : w._exit_set = false)
    (hobj : dictGet g.heap w._thread = some obj)
    (hpos : 0 < obj.max_queue_size) (hlen : obj.max_queue_size ≤ obj.sql_queue.length) :
    Sqlite3Worker.execute_ex eng g w reqId query values
        = Except.error PyError.queueFull ∧
    Sqlite3Worker.executescript_ex g w reqId query
        = CallOutcome.raised PyError.queueFull ∧
    Sqlite3Worker.commit g w = Except.error PyError.queueFull ∧
    Sqlite3Worker.set_row_factory g w rf = Except.error PyError.queueFull ∧
    Sqlite3Worker.set_text_factory g w tf = Except.error PyError.queueFull := by
  have hfull : ∀ r, threadQueuePut g w r = Except.error PyError.queueFull :=
    fun r => threadQueuePut_full g w obj r hobj hpos hlen
  refine ⟨?_, ?_, ?_, ?_, ?_⟩
  · simp [Sqlite3Worker.execute_ex, hopen, hfull]
  · simp [Sqlite3Worker.executescript_ex, hopen, hfull]
  · simp [Sqlite3Worker.commit, hopen, hfull]
  · simp [Sqlite3Worker.set_row_factory, hfull]
  · simp [Sqlite3Worker.set_text_factory, hfull]

/-- C9 witness: the theorem applied at a concrete state whose owner thread's
queue is at its capacity of one. -/
theorem C9_queue_full_rejected_witness :
    Sqlite3Worker.execute_ex engW gFullW wW 0 "select 1" none
        = Except.error PyError.queueFull ∧
    Sqlite3Worker.executescript_ex gFullW wW 0 "select 1"
        = CallOutcome.raised PyError.queueFull ∧
    Sqlite3Worker.commit gFullW wW = Except.error PyError.queueFull ∧
    Sqlite3Worker.set_row_factory gFullW wW 7 = Except.error PyError.queueFull ∧
    Sqlite3Worker.set_text_factory gFullW wW 8 = Except.error PyError.queueFull := by
  exact C9_queue_full_rejected engW gFullW wW ⟨[1], [Sqlite3WorkerRequest.commitReq], 1⟩
    0 7 8 "select 1" none rfl rfl (by decide) (by decide)

/-- C10: confirmed: constructing a handle for a path whose Owner Thread is
already registered returns that thread and only appends the handle to its
workers set; the max_queue_size argument of this construction is never read,
so the shared queue and its bound stay exactly as the first construction
fixed them. -/
theorem C10_max_queue_size_ignored (platformSystem : String) (abspath : String → String)
    (g : GlobalState) (wid q tid : Nat) (s : String) (obj : Sqlite3WorkerThreadObj)
    (hreg : dictGet g.threads (normalize_file_name platformSystem abspath s) = some tid)
    (hobj : dictGet g.heap tid = some obj) :
    ((Sqlite3Worker.init platformSystem abspath g wid s q).1)._thread = tid ∧
    dictGet ((Sqlite3Worker.init platformSystem abspath g wid s q).2).heap tid
      = some { obj with workers := obj.workers ++ [wid] } := by
  constructor
  · exact init_found platformSystem abspath g wid q tid s hreg
  · simp [Sqlite3Worker.init, hreg, hobj, dictGet_set_self]

/-- C10 witness: the theorem applied to a registered thread with bound 100 and
a second construction requesting bound 5, which leaves bound and queue
untouched. -/
theorem C10_max_queue_size_ignored_witness :
    ((Sqlite3Worker.init "Linux" id gW 2 "/tmp/db" 5).1)._thread = 0 ∧
    dictGet ((Sqlite3Worker.init "Linux" id gW 2 "/tmp/db" 5).2).heap 0
      = some { (⟨[1], [], 100⟩ : Sqlite3WorkerThreadObj) with
          workers := ([1] : List Nat) ++ [2] } := by
  exact C10_max_queue_size_ignored "Linux" id gW 2 5 0 "/tmp/db" ⟨[1], [], 100⟩
    (by decide) (by decide)

end Sqlite3worker
